import Mathlib

/-!
# Verification of the ledger engine of `iamzubin/dodo-interview`

Shallow embedding of the transactional ledger core (transfer / credit /
debit handlers, the idempotency-key protocol and the webhook dispatcher)
of the repository, translated from:

* `src/services/accounts.rs`  — service-level database operations
* `src/handlers/accounts.rs`  — the `transfer` and `credit_debit` handlers
* `src/services/webhooks.rs`  — the `process_webhooks` dispatcher loop

Modelling conventions:

* Database UUIDs are modelled as `Nat` (`Uuid`).  String-format parsing of
  ids in `validate_transfer_input` / `validate_cd_input`
  (`Uuid::parse_str`) is abstracted away: request ids arrive already
  parsed, so the "Invalid ... format" error paths are out of the model.
* The Postgres store is a record of association lists (`DbState`): one row
  list per table.  SQL `SELECT ... WHERE` is first-match lookup, SQL
  `UPDATE ... WHERE` maps over all matching rows, exactly as the
  statements in the source are written.
* `created_at` / timestamp columns of `accounts`, `transactions` and
  `idempotency_keys` are not modelled (no claim mentions them); the
  dispatcher's `last_attempt_at` IS modelled, as integer seconds.
* Transient database errors inside the ledger transaction are not
  modelled (they abort the transaction); the one store error a claim
  depends on — an error of the `SELECT` in `check_idempotency_cache`,
  which that function swallows into `Ok(None)` — is modelled by the
  explicit `dbError : Bool` argument.
* Each Rust function keeps its name.  JSON error bodies become the
  inductive `LedgerError`, carrying the fields the source puts in the
  body (`currencyMismatch` both codes, `insufficientBalance`
  available/required).
-/

/-- Database UUIDs, modelled as naturals (Postgres orders them totally;
only equality and order matter to the claims). -/
abbrev Uuid := Nat

/-- `IdempotencyStatus` from `src/models.rs` (`idempotency_status` enum). -/
inductive IdempotencyStatus
  | pending
  | success
  | failed
deriving DecidableEq, Repr

/-- `WebhookEventStatus` from `src/models.rs` (`webhook_event_status` enum). -/
inductive WebhookEventStatus
  | pending
  | delivered
  | failed
deriving DecidableEq, Repr

/-- A row of the `accounts` table (id is the association-list key). -/
structure Account where
  business_id : Uuid
  balance : Int
  currency : String
deriving DecidableEq, Repr

/-- `TransferRequest` from `src/models.rs`, ids already parsed. -/
structure TransferRequest where
  from_account_id : Uuid
  to_account_id : Uuid
  amount : Int
  idempotency_key : String
deriving DecidableEq, Repr

/-- `TransferResponse` as constructed and consumed by
`src/handlers/accounts.rs` (including the `cached` marker field the
handler sets on a cache hit). -/
structure TransferResponse where
  transaction_id : Uuid
  from_account_id : Uuid
  to_account_id : Uuid
  amount : Int
  currency : String
  status : String
  cached : Option Bool
deriving DecidableEq, Repr

/-- `CreditDebitRequest` as consumed by `src/handlers/accounts.rs`. -/
structure CreditDebitRequest where
  account_id : Uuid
  amount : Int
  transaction_type : String
  idempotency_key : String
deriving DecidableEq, Repr

/-- `CreditDebitResponse` as constructed by `src/handlers/accounts.rs`. -/
structure CreditDebitResponse where
  transaction_id : Uuid
  account_id : Uuid
  amount : Int
  currency : String
  transaction_type : String
  status : String
  new_balance : Int
  cached : Option Bool
deriving DecidableEq, Repr

/-- A stored JSON document (idempotency `response_body`, webhook
`payload`): either a well-formed serialization of one of the two
response shapes, or a document that does not deserialize into the
requested response type (`serde_json::from_value` failure). -/
inductive StoredBody
  | transfer (r : TransferResponse)
  | creditDebit (r : CreditDebitResponse)
  | malformed
deriving DecidableEq, Repr

/-- `serde_json::from_value::<TransferResponse>` on a stored document. -/
def decodeTransfer : StoredBody → Option TransferResponse
  | .transfer r => some r
  | _ => none

/-- `serde_json::from_value::<CreditDebitResponse>` on a stored document. -/
def decodeCreditDebit : StoredBody → Option CreditDebitResponse
  | .creditDebit r => some r
  | _ => none

/-- A row of the `idempotency_keys` table; key `(business_id, key)` is the
association-list key, `created_at` is not modelled. -/
structure IdempotencyRow where
  status : IdempotencyStatus
  response_body : Option StoredBody
deriving DecidableEq, Repr

/-- A row of the `transactions` table.  `txn_type` is the `type` column. -/
structure TransactionRow where
  id : Uuid
  business_id : Uuid
  from_account_id : Option Uuid
  to_account_id : Option Uuid
  amount : Int
  txn_type : String
  status : String
  idempotency_key : String
deriving DecidableEq, Repr

/-- A row of the `webhook_endpoints` table (id is the list key). -/
structure WebhookEndpoint where
  business_id : Uuid
  url : String
  secret : String
  is_active : Bool
deriving DecidableEq, Repr

/-- A row of the `webhook_events` table.  `last_attempt_at` is in integer
seconds (`none` = SQL NULL). -/
structure WebhookEvent where
  webhook_endpoint_id : Uuid
  event_type : String
  payload : StoredBody
  status : WebhookEventStatus
  attempts : Int
  last_attempt_at : Option Int
deriving DecidableEq, Repr

/-- The Postgres store visible to the ledger engine. `next_id` models the
database's id generator for `transactions.id` (`RETURNING id`). -/
structure DbState where
  accounts : List (Uuid × Account)
  idempotency_keys : List ((Uuid × String) × IdempotencyRow)
  transactions : List TransactionRow
  webhook_endpoints : List (Uuid × WebhookEndpoint)
  webhook_events : List WebhookEvent
  next_id : Uuid
deriving DecidableEq, Repr

/-- First-match lookup in an `accounts` association list
(`SELECT ... FROM accounts WHERE id = $1`). -/
def lookupAcc : List (Uuid × Account) → Uuid → Option Account
  | [], _ => none
  | p :: rest, id => if p.1 = id then some p.2 else lookupAcc rest id

/-- `SELECT ... FROM accounts WHERE id = $1` on the store. -/
def lookupAccount (st : DbState) (id : Uuid) : Option Account :=
  lookupAcc st.accounts id

/-- First-match lookup of an idempotency row
(`SELECT ... FROM idempotency_keys WHERE business_id = $1 AND key = $2`). -/
def lookupIdemRow : List ((Uuid × String) × IdempotencyRow) → Uuid → String → Option IdempotencyRow
  | [], _, _ => none
  | p :: rest, biz, key =>
      if p.1.1 = biz ∧ p.1.2 = key then some p.2 else lookupIdemRow rest biz key

/-- Idempotency-row lookup on the store. -/
def lookupIdem (st : DbState) (biz : Uuid) (key : String) : Option IdempotencyRow :=
  lookupIdemRow st.idempotency_keys biz key

/-- `UPDATE accounts SET balance = <f balance> WHERE id = $2`: rewrite
every row whose id matches. -/
def setAccountBalance : List (Uuid × Account) → Uuid → (Int → Int) → List (Uuid × Account)
  | [], _, _ => []
  | p :: rest, id, f =>
      (if p.1 = id then (p.1, { p.2 with balance := f p.2.balance }) else p)
        :: setAccountBalance rest id f

/-- The balance of account `id` in the store, when the row exists. -/
def balanceOf (st : DbState) (id : Uuid) : Option Int :=
  (lookupAccount st id).map Account.balance

/-- Number of `transactions` rows carrying a given idempotency key. -/
def txnCountForKey (st : DbState) (key : String) : Nat :=
  (st.transactions.filter (fun t => t.idempotency_key = key)).length

/-- Errors surfaced as JSON bodies by `src/services/accounts.rs` and
`src/handlers/accounts.rs`; constructors carry the extra fields the
source puts in the JSON body. -/
inductive LedgerError
  | amountMustBePositive
  | invalidTransactionType
  | operationInProgress
  | operationAlreadyCompleted
  | sourceAccountNotFound
  | destinationAccountNotFound
  | currencyMismatch (from_currency to_currency : String)
  | insufficientBalance (available required : Int)
  | accountNotFoundOrNotOwned
  | failedToUpdateBalance
deriving DecidableEq, Repr

/-- `validate_transfer_input` (`src/services/accounts.rs:8`): reject a
non-positive amount, return the two parsed ids.  There is no check that
the two ids differ. -/
def validate_transfer_input (payload : TransferRequest) :
    Except LedgerError (Uuid × Uuid) :=
  if payload.amount ≤ 0 then .error .amountMustBePositive
  else .ok (payload.from_account_id, payload.to_account_id)

/-- `check_idempotency_cache` (`src/services/accounts.rs:22`), generic in
the response type via `decode`.  Every failure — store error on the
`SELECT` (`dbError`), no row, non-`success` status, NULL `response_body`,
deserialization failure — falls through to `Ok(None)`: the function
never surfaces an error. -/
def check_idempotency_cache {α : Type} (decode : StoredBody → Option α)
    (st : DbState) (business_id : Uuid) (idempotency_key : String)
    (dbError : Bool) : Option α :=
  if dbError then none
  else
    match lookupIdem st business_id idempotency_key with
    | none => none
    | some row =>
        match row.status with
        | .success =>
            match row.response_body with
            | some body => decode body
            | none => none
        | _ => none

/-- The INSERT arm of `reserve_idempotency_key`: a fresh
`(business_id, key)` row with status `pending` and NULL `response_body`. -/
def insertPendingRow (st : DbState) (business_id : Uuid) (idempotency_key : String) : DbState :=
  { st with idempotency_keys :=
      st.idempotency_keys ++
        [((business_id, idempotency_key),
          { status := .pending, response_body := none })] }

/-- `reserve_idempotency_key` (`src/services/accounts.rs:53`), the
`INSERT ... ON CONFLICT (business_id, key) DO UPDATE SET created_at = NOW()
WHERE status NOT IN (success, pending)` statement followed by the
`rows_affected = 0` follow-up `SELECT`, sequentialized:

* no row → the INSERT inserts `(pending, NULL)`;
* existing row with status `failed` → the conflict-update fires but its
  `SET` list touches only `created_at`, so (with `created_at` outside the
  model) the row — in particular its `failed` status — is unchanged, and
  the call still returns `Ok`;
* existing `pending` / `success` row → zero rows affected; the follow-up
  `SELECT` maps the status to the two distinct errors. -/
def reserve_idempotency_key (st : DbState) (business_id : Uuid)
    (idempotency_key : String) : Except LedgerError DbState :=
  match lookupIdem st business_id idempotency_key with
  | none => .ok (insertPendingRow st business_id idempotency_key)
  | some row =>
      match row.status with
      | .failed => .ok st
      | .pending => .error .operationInProgress
      | .success => .error .operationAlreadyCompleted

/-- `fetch_and_validate_accounts` (`src/services/accounts.rs:117`).
First component: the `(currency, from_balance)` result or the first
error, with the source's check order (source row by id AND business_id,
destination row by id only, then currency equality, then balance
sufficiency).  Second component: the ids of the account rows locked by
the two `SELECT ... FOR UPDATE` statements, in acquisition order (a
`FOR UPDATE` locks a row only when the row matches its WHERE clause). -/
def fetch_and_validate_accounts (st : DbState) (from_account_id to_account_id : Uuid)
    (business_id : Uuid) (amount : Int) :
    Except LedgerError (String × Int) × List Uuid :=
  match lookupAccount st from_account_id with
  | none => (.error .sourceAccountNotFound, [])
  | some from_account =>
      if from_account.business_id = business_id then
        match lookupAccount st to_account_id with
        | none => (.error .destinationAccountNotFound, [from_account_id])
        | some to_account =>
            if from_account.currency = to_account.currency then
              if from_account.balance < amount then
                (.error (.insufficientBalance from_account.balance amount),
                 [from_account_id, to_account_id])
              else
                (.ok (from_account.currency, from_account.balance),
                 [from_account_id, to_account_id])
            else
              (.error (.currencyMismatch from_account.currency to_account.currency),
               [from_account_id, to_account_id])
      else (.error .sourceAccountNotFound, [])

/-- `execute_balance_transfer` (`src/services/accounts.rs:185`): debit the
source row, then credit the destination row, two sequential `UPDATE`s. -/
def execute_balance_transfer (st : DbState) (from_account_id to_account_id : Uuid)
    (amount : Int) : DbState :=
  let st1 := { st with accounts := setAccountBalance st.accounts from_account_id (fun b => b - amount) }
  { st1 with accounts := setAccountBalance st1.accounts to_account_id (fun b => b + amount) }

/-- `create_transaction_record` (`src/services/accounts.rs:208`): insert a
`(transfer, success)` transactions row; the returned id models
`RETURNING id`. -/
def create_transaction_record (st : DbState) (business_id from_account_id to_account_id : Uuid)
    (amount : Int) (idempotency_key : String) : Uuid × DbState :=
  (st.next_id,
   { st with
       transactions := st.transactions ++
         [{ id := st.next_id, business_id := business_id,
            from_account_id := some from_account_id,
            to_account_id := some to_account_id, amount := amount,
            txn_type := "transfer", status := "success",
            idempotency_key := idempotency_key }],
       next_id := st.next_id + 1 })

/-- `store_idempotency_key` (`src/services/accounts.rs:235`): set the row
to `success` and store the serialized response body. -/
def store_idempotency_key (st : DbState) (business_id : Uuid) (idempotency_key : String)
    (body : StoredBody) : DbState :=
  { st with idempotency_keys :=
      st.idempotency_keys.map (fun p =>
        if p.1.1 = business_id ∧ p.1.2 = idempotency_key then
          (p.1, { status := .success, response_body := some body })
        else p) }

/-- `fail_idempotency_key` (`src/services/accounts.rs:260`): set the row's
status to `failed` (response body untouched). -/
def fail_idempotency_key (st : DbState) (business_id : Uuid) (idempotency_key : String) :
    DbState :=
  { st with idempotency_keys :=
      st.idempotency_keys.map (fun p =>
        if p.1.1 = business_id ∧ p.1.2 = idempotency_key then
          (p.1, { p.2 with status := .failed })
        else p) }

/-- `create_webhook_event` (`src/services/accounts.rs:279`): one new
`pending` event row per active endpoint of the business. -/
def create_webhook_event (st : DbState) (business_id : Uuid) (event_type : String)
    (payload : StoredBody) : DbState :=
  { st with webhook_events :=
      st.webhook_events ++
        ((st.webhook_endpoints.filter
            (fun p => p.2.business_id = business_id && p.2.is_active)).map
          (fun p =>
            { webhook_endpoint_id := p.1, event_type := event_type,
              payload := payload, status := .pending, attempts := 0,
              last_attempt_at := none })) }

/-- The `process_transfer` block of the `transfer` handler
(`src/handlers/accounts.rs:140`): everything inside the database
transaction.  An error means the transaction rolls back, so the error
carries no state. -/
def process_transfer (st : DbState) (business_id : Uuid) (payload : TransferRequest)
    (from_account_id to_account_id : Uuid) :
    Except LedgerError (TransferResponse × DbState) :=
  match (fetch_and_validate_accounts st from_account_id to_account_id business_id payload.amount).1 with
  | .error e => .error e
  | .ok (currency, _) =>
      let st1 := execute_balance_transfer st from_account_id to_account_id payload.amount
      let r := create_transaction_record st1 business_id from_account_id to_account_id
        payload.amount payload.idempotency_key
      let response : TransferResponse :=
        { transaction_id := r.1, from_account_id := payload.from_account_id,
          to_account_id := payload.to_account_id, amount := payload.amount,
          currency := currency, status := "success", cached := none }
      let st3 := create_webhook_event r.2 business_id "transfer.created" (.transfer response)
      let st4 := store_idempotency_key st3 business_id payload.idempotency_key (.transfer response)
      .ok (response, st4)

/-- The `transfer` handler (`src/handlers/accounts.rs:122`): validate,
consult the idempotency cache (returning the cached body with
`cached = true` on a hit), reserve the key, run the transaction block,
and on a transaction error mark the key `failed` out of band. -/
def transfer (st : DbState) (business_id : Uuid) (payload : TransferRequest)
    (checkDbError : Bool) : Except LedgerError TransferResponse × DbState :=
  match validate_transfer_input payload with
  | .error e => (.error e, st)
  | .ok (from_account_id, to_account_id) =>
      match check_idempotency_cache decodeTransfer st business_id payload.idempotency_key checkDbError with
      | some cached_response => (.ok { cached_response with cached := some true }, st)
      | none =>
          match reserve_idempotency_key st business_id payload.idempotency_key with
          | .error e => (.error e, st)
          | .ok st1 =>
              match process_transfer st1 business_id payload from_account_id to_account_id with
              | .ok (response, st2) => (.ok response, st2)
              | .error e => (.error e, fail_idempotency_key st1 business_id payload.idempotency_key)

/-- `validate_cd_input` (`src/services/accounts.rs:315`). -/
def validate_cd_input (payload : CreditDebitRequest) : Except LedgerError Uuid :=
  if payload.amount ≤ 0 then .error .amountMustBePositive
  else if payload.transaction_type ≠ "credit" ∧ payload.transaction_type ≠ "debit" then
    .error .invalidTransactionType
  else .ok payload.account_id

/-- `fetch_account` (`src/services/accounts.rs:330`): the single
`SELECT ... WHERE id = $1 AND business_id = $2 FOR UPDATE`; a row owned by
another business is simply not returned. -/
def fetch_account (st : DbState) (account_id business_id : Uuid) :
    Except LedgerError (String × Int) :=
  match lookupAccount st account_id with
  | none => .error .accountNotFoundOrNotOwned
  | some a =>
      if a.business_id = business_id then .ok (a.currency, a.balance)
      else .error .accountNotFoundOrNotOwned

/-- `update_balance` (`src/services/accounts.rs:356`):
`UPDATE ... SET balance = balance ± $1 ... RETURNING balance`
(`fetch_one` errors when no row matches).  The Rust `is_credit: bool`
is modelled as a decidable proposition. -/
def update_balance (st : DbState) (account_id : Uuid) (amount : Int) (is_credit : Prop)
    [Decidable is_credit] : Except LedgerError (Int × DbState) :=
  let f : Int → Int := fun b => if is_credit then b + amount else b - amount
  match lookupAccount st account_id with
  | none => .error .failedToUpdateBalance
  | some a =>
      .ok (f a.balance, { st with accounts := setAccountBalance st.accounts account_id f })

/-- `create_cd_record` (`src/services/accounts.rs:380`): credit rows set
only `to_account_id`, debit rows only `from_account_id`. -/
def create_cd_record (st : DbState) (business_id account_id : Uuid) (amount : Int)
    (transaction_type idempotency_key : String) : Uuid × DbState :=
  let ft : Option Uuid × Option Uuid :=
    if transaction_type = "credit" then (none, some account_id) else (some account_id, none)
  (st.next_id,
   { st with
       transactions := st.transactions ++
         [{ id := st.next_id, business_id := business_id, from_account_id := ft.1,
            to_account_id := ft.2, amount := amount, txn_type := transaction_type,
            status := "success", idempotency_key := idempotency_key }],
       next_id := st.next_id + 1 })

/-- The `process_cd` block of the `credit_debit` handler
(`src/handlers/accounts.rs:222`). -/
def process_credit_debit (st : DbState) (business_id : Uuid) (payload : CreditDebitRequest)
    (account_id : Uuid) : Except LedgerError (CreditDebitResponse × DbState) :=
  match fetch_account st account_id business_id with
  | .error e => .error e
  | .ok (currency, current_balance) =>
      if ¬ payload.transaction_type = "credit" ∧ current_balance < payload.amount then
        .error (.insufficientBalance current_balance payload.amount)
      else
        match update_balance st account_id payload.amount (payload.transaction_type = "credit") with
        | .error e => .error e
        | .ok (new_balance, st1) =>
            let r := create_cd_record st1 business_id account_id payload.amount
              payload.transaction_type payload.idempotency_key
            let response : CreditDebitResponse :=
              { transaction_id := r.1, account_id := payload.account_id,
                amount := payload.amount, currency := currency,
                transaction_type := payload.transaction_type, status := "success",
                new_balance := new_balance, cached := none }
            let st3 := create_webhook_event r.2 business_id
              (payload.transaction_type ++ ".created") (.creditDebit response)
            let st4 := store_idempotency_key st3 business_id payload.idempotency_key
              (.creditDebit response)
            .ok (response, st4)

/-- The `credit_debit` handler (`src/handlers/accounts.rs:198`). -/
def credit_debit (st : DbState) (business_id : Uuid) (payload : CreditDebitRequest)
    (checkDbError : Bool) : Except LedgerError CreditDebitResponse × DbState :=
  match validate_cd_input payload with
  | .error e => (.error e, st)
  | .ok account_id =>
      match check_idempotency_cache decodeCreditDebit st business_id payload.idempotency_key checkDbError with
      | some cached_response => (.ok { cached_response with cached := some true }, st)
      | none =>
          match reserve_idempotency_key st business_id payload.idempotency_key with
          | .error e => (.error e, st)
          | .ok st1 =>
              match process_credit_debit st1 business_id payload account_id with
              | .ok (response, st2) => (.ok response, st2)
              | .error e => (.error e, fail_idempotency_key st1 business_id payload.idempotency_key)

/-- Outcome of one webhook delivery attempt in `process_webhooks`
(`src/services/webhooks.rs:45`): an HTTP response (2xx or not) or a
transport error. -/
inductive DeliveryResult
  | http (is_2xx : Bool)
  | transportError
deriving DecidableEq, Repr

/-- Whether the delivery attempt failed (non-2xx and transport errors are
treated symmetrically by the dispatcher). -/
def DeliveryResult.isFailure : DeliveryResult → Bool
  | .http is_2xx => ¬ is_2xx
  | .transportError => true

/-- The per-event body of the dispatcher loop
(`src/services/webhooks.rs:52`): compute the new status from the
delivery result and the pre-attempt `attempts` value, then
`UPDATE ... SET status, last_attempt_at = NOW(), attempts = attempts + 1`. -/
def processWebhookEvent (e : WebhookEvent) (result : DeliveryResult) (now : Int) :
    WebhookEvent :=
  let new_status :=
    match result with
    | .http is_2xx =>
        if is_2xx then WebhookEventStatus.delivered
        else if e.attempts ≥ 5 then .failed else .pending
    | .transportError => if e.attempts ≥ 5 then .failed else .pending
  { e with status := new_status, last_attempt_at := some now,
           attempts := e.attempts + 1 }

/-- The dequeue predicate of `process_webhooks`
(`src/services/webhooks.rs:14`): an event row is selected only when its
status is `pending`, its endpoint is active, and its linear backoff
window (`10 s × (attempts + 1)` after `last_attempt_at`) has elapsed. -/
def webhookDue (e : WebhookEvent) (endpointActive : Bool) (now : Int) : Prop :=
  e.status = .pending ∧ endpointActive = true ∧
    (e.last_attempt_at = none ∨
      ∃ t, e.last_attempt_at = some t ∧ t < now - 10 * (e.attempts + 1))

instance (e : WebhookEvent) (a : Bool) (now : Int) : Decidable (webhookDue e a now) := by
  unfold webhookDue
  infer_instance

/-- A small concrete store: business 7 owns USD accounts 1 and 2 and EUR
account 3 (opening balances as in the spec scenarios), business 9 owns
USD account 4. -/
def sampleState : DbState :=
  { accounts := [(1, ⟨7, 10000, "USD"⟩), (2, ⟨7, 10000, "USD"⟩),
                 (3, ⟨7, 5000, "EUR"⟩), (4, ⟨9, 800, "USD"⟩)],
    idempotency_keys := [], transactions := [], webhook_endpoints := [],
    webhook_events := [], next_id := 100 }

/-- A transfer response as stored by a previously successful transfer
under key `k1` of business 7. -/
def cachedTransferResponse : TransferResponse :=
  { transaction_id := 50, from_account_id := 1, to_account_id := 2,
    amount := 300, currency := "USD", status := "success", cached := none }

/-- A credit response as stored by a previously successful credit under
key `k2` of business 7. -/
def cachedCreditDebitResponse : CreditDebitResponse :=
  { transaction_id := 60, account_id := 1, amount := 200, currency := "USD",
    transaction_type := "credit", status := "success", new_balance := 10200,
    cached := none }

/-- `sampleState` with idempotency rows in every status: completed
transfer `k1` and credit `k2` (each with its transaction row), a
`success` row `k3` whose stored body does not deserialize, an in-flight
`pending` row `k4`, and a `failed` row `k5`. -/
def populatedState : DbState :=
  { sampleState with
      idempotency_keys :=
        [((7, "k1"), ⟨.success, some (.transfer cachedTransferResponse)⟩),
         ((7, "k2"), ⟨.success, some (.creditDebit cachedCreditDebitResponse)⟩),
         ((7, "k3"), ⟨.success, some .malformed⟩),
         ((7, "k4"), ⟨.pending, none⟩),
         ((7, "k5"), ⟨.failed, none⟩)],
      transactions :=
        [⟨50, 7, some 1, some 2, 300, "transfer", "success", "k1"⟩,
         ⟨60, 7, none, some 1, 200, "credit", "success", "k2"⟩] }

/-!  ## Helper lemmas  -/

@[simp]
theorem accounts_insertPendingRow (st : DbState) (b : Uuid) (k : String) :
    (insertPendingRow st b k).accounts = st.accounts := rfl

@[simp]
theorem transactions_insertPendingRow (st : DbState) (b : Uuid) (k : String) :
    (insertPendingRow st b k).transactions = st.transactions := rfl

@[simp]
theorem next_id_insertPendingRow (st : DbState) (b : Uuid) (k : String) :
    (insertPendingRow st b k).next_id = st.next_id := rfl

@[simp]
theorem accounts_store_idempotency_key (st : DbState) (b : Uuid) (k : String) (body : StoredBody) :
    (store_idempotency_key st b k body).accounts = st.accounts := rfl

@[simp]
theorem transactions_store_idempotency_key (st : DbState) (b : Uuid) (k : String) (body : StoredBody) :
    (store_idempotency_key st b k body).transactions = st.transactions := rfl

@[simp]
theorem accounts_fail_idempotency_key (st : DbState) (b : Uuid) (k : String) :
    (fail_idempotency_key st b k).accounts = st.accounts := rfl

@[simp]
theorem transactions_fail_idempotency_key (st : DbState) (b : Uuid) (k : String) :
    (fail_idempotency_key st b k).transactions = st.transactions := rfl

@[simp]
theorem accounts_create_webhook_event (st : DbState) (b : Uuid) (e : String) (p : StoredBody) :
    (create_webhook_event st b e p).accounts = st.accounts := rfl

@[simp]
theorem transactions_create_webhook_event (st : DbState) (b : Uuid) (e : String) (p : StoredBody) :
    (create_webhook_event st b e p).transactions = st.transactions := rfl

@[simp]
theorem accounts_create_transaction_record (st : DbState) (b f t : Uuid) (a : Int) (k : String) :
    (create_transaction_record st b f t a k).2.accounts = st.accounts := rfl

@[simp]
theorem accounts_execute_balance_transfer (st : DbState) (f t : Uuid) (a : Int) :
    (execute_balance_transfer st f t a).accounts =
      setAccountBalance (setAccountBalance st.accounts f (fun b => b - a)) t (fun b => b + a) := rfl

@[simp]
theorem transactions_execute_balance_transfer (st : DbState) (f t : Uuid) (a : Int) :
    (execute_balance_transfer st f t a).transactions = st.transactions := rfl

@[simp]
theorem next_id_execute_balance_transfer (st : DbState) (f t : Uuid) (a : Int) :
    (execute_balance_transfer st f t a).next_id = st.next_id := rfl

theorem lookupAcc_setAccountBalance_self (l : List (Uuid × Account)) (id : Uuid) (f : Int → Int) :
    lookupAcc (setAccountBalance l id f) id =
      (lookupAcc l id).map (fun a => { a with balance := f a.balance }) := by
  induction l with
  | nil => rfl
  | cons p rest ih =>
      by_cases h : p.1 = id
      · simp [setAccountBalance, lookupAcc, h]
      · simp [setAccountBalance, lookupAcc, h, ih]

theorem lookupAcc_setAccountBalance_ne (l : List (Uuid × Account)) (id id' : Uuid)
    (f : Int → Int) (h : id' ≠ id) :
    lookupAcc (setAccountBalance l id f) id' = lookupAcc l id' := by
  induction l with
  | nil => rfl
  | cons p rest ih =>
      simp only [setAccountBalance, lookupAcc]
      by_cases hp : p.1 = id
      · have h2 : ¬ p.1 = id' := by
          intro hc
          exact h (by rw [← hc, hp])
        rw [if_pos hp]
        rw [show ((p.1, { p.2 with balance := f p.2.balance }) : Uuid × Account).1 = p.1 from rfl]
        rw [if_neg h2, if_neg h2, ih]
      · rw [if_neg hp]
        by_cases hp' : p.1 = id'
        · rw [if_pos hp', if_pos hp']
        · rw [if_neg hp', if_neg hp', ih]

/-- `validate_transfer_input` succeeds exactly on positive amounts. -/
theorem validate_transfer_input_ok (p : TransferRequest) (h : 0 < p.amount) :
    validate_transfer_input p = .ok (p.from_account_id, p.to_account_id) := by
  unfold validate_transfer_input
  rw [if_neg (by omega)]

/-- `check_idempotency_cache` misses when no row exists for the key. -/
theorem check_idempotency_cache_fresh {α : Type} (decode : StoredBody → Option α)
    (st : DbState) (b : Uuid) (k : String) (dbError : Bool)
    (h : lookupIdem st b k = none) :
    check_idempotency_cache decode st b k dbError = none := by
  unfold check_idempotency_cache
  cases dbError <;> simp [h]

/-- `check_idempotency_cache` misses on a row that is not `success`. -/
theorem check_idempotency_cache_not_success {α : Type} (decode : StoredBody → Option α)
    (st : DbState) (b : Uuid) (k : String) (dbError : Bool) (row : IdempotencyRow)
    (h : lookupIdem st b k = some row) (hs : row.status ≠ .success) :
    check_idempotency_cache decode st b k dbError = none := by
  unfold check_idempotency_cache
  rw [h]
  rcases row with ⟨status, body⟩
  cases status <;> cases dbError <;> simp_all

/-- `reserve_idempotency_key` on a fresh key inserts the pending row. -/
theorem reserve_idempotency_key_fresh (st : DbState) (b : Uuid) (k : String)
    (h : lookupIdem st b k = none) :
    reserve_idempotency_key st b k = .ok (insertPendingRow st b k) := by
  unfold reserve_idempotency_key
  rw [h]

/-- Forward computation of `fetch_and_validate_accounts` when every check
passes. -/
theorem fetch_and_validate_accounts_ok (st : DbState) (f t biz : Uuid) (amount : Int)
    (fa ta : Account) (hfa : lookupAccount st f = some fa) (hb : fa.business_id = biz)
    (hta : lookupAccount st t = some ta) (hc : fa.currency = ta.currency)
    (hbal : ¬ fa.balance < amount) :
    fetch_and_validate_accounts st f t biz amount =
      (.ok (fa.currency, fa.balance), [f, t]) := by
  unfold fetch_and_validate_accounts
  rw [hfa, hta]
  simp [hb, hc, hbal]

/-- Inversion of a successful `fetch_and_validate_accounts`. -/
theorem fetch_and_validate_accounts_ok_inv {st : DbState} {f t biz : Uuid} {amount : Int}
    {c : String} {b : Int}
    (h : (fetch_and_validate_accounts st f t biz amount).1 = .ok (c, b)) :
    ∃ fa ta, lookupAccount st f = some fa ∧ fa.business_id = biz ∧
      lookupAccount st t = some ta ∧ fa.currency = ta.currency ∧
      ¬ fa.balance < amount ∧ c = fa.currency ∧ b = fa.balance := by
  unfold fetch_and_validate_accounts at h
  rcases hfa : lookupAccount st f with _ | fa
  · simp [hfa] at h
  simp only [hfa] at h
  by_cases hb : fa.business_id = biz
  swap
  · simp [if_neg hb] at h
  simp only [if_pos hb] at h
  rcases hta : lookupAccount st t with _ | ta
  · simp [hta] at h
  simp only [hta] at h
  by_cases hc : fa.currency = ta.currency
  swap
  · simp [if_neg hc] at h
  simp only [if_pos hc] at h
  by_cases hbal : fa.balance < amount
  · simp [if_pos hbal] at h
  simp only [if_neg hbal, Except.ok.injEq, Prod.mk.injEq] at h
  exact ⟨fa, ta, rfl, hb, rfl, hc, hbal, h.1.symm, h.2.symm⟩

@[simp]
theorem transactions_create_transaction_record (st : DbState) (b f t : Uuid) (a : Int) (k : String) :
    (create_transaction_record st b f t a k).2.transactions =
      st.transactions ++
        [{ id := st.next_id, business_id := b, from_account_id := some f,
           to_account_id := some t, amount := a, txn_type := "transfer",
           status := "success", idempotency_key := k }] := rfl

@[simp]
theorem lookupAccount_insertPendingRow (st : DbState) (b : Uuid) (k : String) (id : Uuid) :
    lookupAccount (insertPendingRow st b k) id = lookupAccount st id := rfl

@[simp]
theorem next_id_create_webhook_event (st : DbState) (b : Uuid) (e : String) (p : StoredBody) :
    (create_webhook_event st b e p).next_id = st.next_id := rfl

@[simp]
theorem next_id_store_idempotency_key (st : DbState) (b : Uuid) (k : String) (body : StoredBody) :
    (store_idempotency_key st b k body).next_id = st.next_id := rfl

/-- `fetch_and_validate_accounts` surfaces the currency mismatch with both
currency codes. -/
theorem fetch_and_validate_accounts_mismatch (st : DbState) (f t biz : Uuid) (amount : Int)
    (fa ta : Account) (hfa : lookupAccount st f = some fa) (hb : fa.business_id = biz)
    (hta : lookupAccount st t = some ta) (hc : fa.currency ≠ ta.currency) :
    (fetch_and_validate_accounts st f t biz amount).1 =
      .error (.currencyMismatch fa.currency ta.currency) := by
  unfold fetch_and_validate_accounts
  rw [hfa, hta]
  simp [hb, hc]

/-- `fetch_and_validate_accounts` surfaces insufficiency with the
available and required amounts. -/
theorem fetch_and_validate_accounts_insufficient (st : DbState) (f t biz : Uuid) (amount : Int)
    (fa ta : Account) (hfa : lookupAccount st f = some fa) (hb : fa.business_id = biz)
    (hta : lookupAccount st t = some ta) (hc : fa.currency = ta.currency)
    (hbal : fa.balance < amount) :
    (fetch_and_validate_accounts st f t biz amount).1 =
      .error (.insufficientBalance fa.balance amount) := by
  unfold fetch_and_validate_accounts
  rw [hfa, hta]
  simp [hb, hc, hbal]

/-- A validation error aborts `process_transfer` with the same error. -/
theorem process_transfer_err {st : DbState} {biz : Uuid} {p : TransferRequest} {f t : Uuid}
    {e : LedgerError}
    (hF : (fetch_and_validate_accounts st f t biz p.amount).1 = .error e) :
    process_transfer st biz p f t = .error e := by
  unfold process_transfer
  simp only [hF]

/-- Forward computation of `process_transfer` when all checks pass. -/
theorem process_transfer_ok (st : DbState) (biz : Uuid) (p : TransferRequest) (f t : Uuid)
    (fa ta : Account) (hfa : lookupAccount st f = some fa) (hb : fa.business_id = biz)
    (hta : lookupAccount st t = some ta) (hc : fa.currency = ta.currency)
    (hbal : ¬ fa.balance < p.amount) :
    ∃ resp st',
      process_transfer st biz p f t = .ok (resp, st') ∧
      resp = { transaction_id := st.next_id, from_account_id := p.from_account_id,
               to_account_id := p.to_account_id, amount := p.amount,
               currency := fa.currency, status := "success", cached := none } ∧
      st'.accounts =
        setAccountBalance (setAccountBalance st.accounts f (fun b => b - p.amount)) t
          (fun b => b + p.amount) ∧
      st'.transactions = st.transactions ++
        [{ id := st.next_id, business_id := biz, from_account_id := some f,
           to_account_id := some t, amount := p.amount, txn_type := "transfer",
           status := "success", idempotency_key := p.idempotency_key }] := by
  unfold process_transfer
  rw [fetch_and_validate_accounts_ok st f t biz p.amount fa ta hfa hb hta hc hbal]
  exact ⟨_, _, rfl, rfl, by simp, by simp⟩

/-- Inversion of a successful `process_transfer`. -/
theorem process_transfer_ok_inv {st : DbState} {biz : Uuid} {p : TransferRequest} {f t : Uuid}
    {resp : TransferResponse} {st' : DbState}
    (h : process_transfer st biz p f t = .ok (resp, st')) :
    ∃ fa ta, lookupAccount st f = some fa ∧ fa.business_id = biz ∧
      lookupAccount st t = some ta ∧ fa.currency = ta.currency ∧
      ¬ fa.balance < p.amount ∧
      resp = { transaction_id := st.next_id, from_account_id := p.from_account_id,
               to_account_id := p.to_account_id, amount := p.amount,
               currency := fa.currency, status := "success", cached := none } ∧
      st'.accounts =
        setAccountBalance (setAccountBalance st.accounts f (fun b => b - p.amount)) t
          (fun b => b + p.amount) ∧
      st'.transactions = st.transactions ++
        [{ id := st.next_id, business_id := biz, from_account_id := some f,
           to_account_id := some t, amount := p.amount, txn_type := "transfer",
           status := "success", idempotency_key := p.idempotency_key }] := by
  rcases hF : (fetch_and_validate_accounts st f t biz p.amount).1 with e | ⟨c, b⟩
  · rw [process_transfer_err hF] at h
    simp at h
  · obtain ⟨fa, ta, hfa, hb, hta, hc, hbal, hce, hbe⟩ := fetch_and_validate_accounts_ok_inv hF
    unfold process_transfer at h
    simp only [hF] at h
    simp only [Except.ok.injEq, Prod.mk.injEq] at h
    obtain ⟨h1, h2⟩ := h
    subst hce
    subst h1
    subst h2
    exact ⟨fa, ta, hfa, hb, hta, hc, hbal, rfl, by simp, by simp⟩

/-- Under a fresh idempotency key and a positive amount the `transfer`
handler reduces to the transaction block applied to the store with the
`pending` row inserted. -/
theorem transfer_fresh (st : DbState) (biz : Uuid) (p : TransferRequest) (cErr : Bool)
    (hfresh : lookupIdem st biz p.idempotency_key = none) (hamt : 0 < p.amount) :
    transfer st biz p cErr =
      (match process_transfer (insertPendingRow st biz p.idempotency_key) biz p
          p.from_account_id p.to_account_id with
       | .ok (r, s2) => (.ok r, s2)
       | .error e =>
           (.error e, fail_idempotency_key (insertPendingRow st biz p.idempotency_key) biz
             p.idempotency_key)) := by
  unfold transfer
  simp only [validate_transfer_input_ok p hamt,
    check_idempotency_cache_fresh decodeTransfer st biz p.idempotency_key cErr hfresh,
    reserve_idempotency_key_fresh st biz p.idempotency_key hfresh]

/-- Inversion of a successful `transfer` under a fresh idempotency key. -/
theorem transfer_fresh_ok_inv {st : DbState} {biz : Uuid} {p : TransferRequest} {cErr : Bool}
    {resp : TransferResponse} {st' : DbState}
    (hfresh : lookupIdem st biz p.idempotency_key = none)
    (h : transfer st biz p cErr = (.ok resp, st')) :
    0 < p.amount ∧
      process_transfer (insertPendingRow st biz p.idempotency_key) biz p
        p.from_account_id p.to_account_id = .ok (resp, st') := by
  by_cases hamt : p.amount ≤ 0
  · exfalso
    unfold transfer validate_transfer_input at h
    rw [if_pos hamt] at h
    simp at h
  have hamt' : 0 < p.amount := by omega
  rw [transfer_fresh st biz p cErr hfresh hamt'] at h
  rcases hP : process_transfer (insertPendingRow st biz p.idempotency_key) biz p
      p.from_account_id p.to_account_id with e | ⟨r, s2⟩
  · simp only [hP] at h
    simp at h
  · simp only [hP] at h
    simp only [Prod.mk.injEq, Except.ok.injEq] at h
    exact ⟨hamt', by rw [h.1, h.2]⟩

/-- Under a fresh key, a transaction-block error surfaces with the key
marked `failed` out of band. -/
theorem transfer_fresh_err (st : DbState) (biz : Uuid) (p : TransferRequest) (cErr : Bool)
    {e : LedgerError}
    (hfresh : lookupIdem st biz p.idempotency_key = none) (hamt : 0 < p.amount)
    (hP : process_transfer (insertPendingRow st biz p.idempotency_key) biz p
        p.from_account_id p.to_account_id = .error e) :
    transfer st biz p cErr =
      (.error e, fail_idempotency_key (insertPendingRow st biz p.idempotency_key) biz
        p.idempotency_key) := by
  rw [transfer_fresh st biz p cErr hfresh hamt]
  simp only [hP]

/-- `validate_cd_input` succeeds on a positive amount and a valid
transaction type. -/
theorem validate_cd_input_ok (p : CreditDebitRequest) (hamt : 0 < p.amount)
    (hty : p.transaction_type = "credit" ∨ p.transaction_type = "debit") :
    validate_cd_input p = .ok p.account_id := by
  unfold validate_cd_input
  rw [if_neg (by omega)]
  rw [if_neg (by rcases hty with h | h <;> simp [h])]

/-- Forward computation of `fetch_account` when the row exists and is
owned by the caller. -/
theorem fetch_account_ok (st : DbState) (aId biz : Uuid) (a : Account)
    (ha : lookupAccount st aId = some a) (hb : a.business_id = biz) :
    fetch_account st aId biz = .ok (a.currency, a.balance) := by
  unfold fetch_account
  rw [ha]
  simp [hb]

/-- Forward computation of `update_balance` when the row exists. -/
theorem update_balance_ok (st : DbState) (aId : Uuid) (amount : Int) (ic : Prop)
    [Decidable ic] (a : Account) (ha : lookupAccount st aId = some a) :
    update_balance st aId amount ic =
      .ok ((if ic then a.balance + amount else a.balance - amount),
        { st with accounts := (setAccountBalance st.accounts aId
            (fun b => if ic then b + amount else b - amount)) }) := by
  unfold update_balance
  rw [ha]

@[simp]
theorem accounts_create_cd_record (st : DbState) (b aId : Uuid) (amt : Int) (ty k : String) :
    (create_cd_record st b aId amt ty k).2.accounts = st.accounts := rfl

@[simp]
theorem next_id_create_cd_record (st : DbState) (b aId : Uuid) (amt : Int) (ty k : String) :
    (create_cd_record st b aId amt ty k).2.next_id = st.next_id + 1 := rfl

/-- Forward computation of `process_credit_debit` when all checks pass. -/
theorem process_credit_debit_ok (st : DbState) (biz : Uuid) (p : CreditDebitRequest)
    (aId : Uuid) (a : Account) (ha : lookupAccount st aId = some a)
    (hb : a.business_id = biz)
    (hbal : ¬ (¬ p.transaction_type = "credit" ∧ a.balance < p.amount)) :
    ∃ resp st',
      process_credit_debit st biz p aId = .ok (resp, st') ∧
      resp = { transaction_id := st.next_id, account_id := p.account_id,
               amount := p.amount, currency := a.currency,
               transaction_type := p.transaction_type, status := "success",
               new_balance := (if p.transaction_type = "credit" then a.balance + p.amount
                               else a.balance - p.amount),
               cached := none } ∧
      st'.accounts =
        setAccountBalance st.accounts aId
          (fun b => if p.transaction_type = "credit" then b + p.amount else b - p.amount) ∧
      st'.transactions = st.transactions ++
        [{ id := st.next_id, business_id := biz,
           from_account_id := (if p.transaction_type = "credit" then none else some aId),
           to_account_id := (if p.transaction_type = "credit" then some aId else none),
           amount := p.amount, txn_type := p.transaction_type,
           status := "success", idempotency_key := p.idempotency_key }] := by
  unfold process_credit_debit
  rw [fetch_account_ok st aId biz a ha hb]
  simp only [if_neg hbal]
  rw [update_balance_ok st aId p.amount (p.transaction_type = "credit") a ha]
  refine ⟨_, _, rfl, rfl, by simp, ?_⟩
  unfold create_cd_record
  by_cases hcr : p.transaction_type = "credit" <;> simp [hcr]

/-- Inversion of a successful `process_credit_debit`. -/
theorem process_credit_debit_ok_inv {st : DbState} {biz : Uuid} {p : CreditDebitRequest}
    {aId : Uuid} {resp : CreditDebitResponse} {st' : DbState}
    (h : process_credit_debit st biz p aId = .ok (resp, st')) :
    ∃ a, lookupAccount st aId = some a ∧ a.business_id = biz ∧
      ¬ (¬ p.transaction_type = "credit" ∧ a.balance < p.amount) ∧
      st'.accounts =
        setAccountBalance st.accounts aId
          (fun b => if p.transaction_type = "credit" then b + p.amount else b - p.amount) := by
  unfold process_credit_debit fetch_account at h
  rcases ha : lookupAccount st aId with _ | a
  · simp [ha] at h
  simp only [ha] at h
  by_cases hb : a.business_id = biz
  swap
  · simp [if_neg hb] at h
  simp only [if_pos hb] at h
  by_cases hbal : ¬ p.transaction_type = "credit" ∧ a.balance < p.amount
  · simp [if_pos hbal] at h
  simp only [if_neg hbal] at h
  rw [update_balance_ok st aId p.amount (p.transaction_type = "credit") a ha] at h
  simp only [Except.ok.injEq, Prod.mk.injEq] at h
  obtain ⟨h1, h2⟩ := h
  subst h1
  subst h2
  exact ⟨a, rfl, hb, hbal, by simp⟩

/-- Under a fresh idempotency key and valid input the `credit_debit`
handler reduces to its transaction block on the store with the `pending`
row inserted. -/
theorem credit_debit_fresh (st : DbState) (biz : Uuid) (p : CreditDebitRequest) (cErr : Bool)
    (hfresh : lookupIdem st biz p.idempotency_key = none) (hamt : 0 < p.amount)
    (hty : p.transaction_type = "credit" ∨ p.transaction_type = "debit") :
    credit_debit st biz p cErr =
      (match process_credit_debit (insertPendingRow st biz p.idempotency_key) biz p
          p.account_id with
       | .ok (r, s2) => (.ok r, s2)
       | .error e =>
           (.error e, fail_idempotency_key (insertPendingRow st biz p.idempotency_key) biz
             p.idempotency_key)) := by
  unfold credit_debit
  simp only [validate_cd_input_ok p hamt hty,
    check_idempotency_cache_fresh decodeCreditDebit st biz p.idempotency_key cErr hfresh,
    reserve_idempotency_key_fresh st biz p.idempotency_key hfresh]

/-- Inversion of a successful `credit_debit` under a fresh idempotency
key. -/
theorem credit_debit_fresh_ok_inv {st : DbState} {biz : Uuid} {p : CreditDebitRequest}
    {cErr : Bool} {resp : CreditDebitResponse} {st' : DbState}
    (hfresh : lookupIdem st biz p.idempotency_key = none)
    (h : credit_debit st biz p cErr = (.ok resp, st')) :
    0 < p.amount ∧
      process_credit_debit (insertPendingRow st biz p.idempotency_key) biz p
        p.account_id = .ok (resp, st') := by
  by_cases hamt : p.amount ≤ 0
  · exfalso
    unfold credit_debit validate_cd_input at h
    rw [if_pos hamt] at h
    simp at h
  have hamt' : 0 < p.amount := by omega
  by_cases hty : p.transaction_type ≠ "credit" ∧ p.transaction_type ≠ "debit"
  · exfalso
    unfold credit_debit validate_cd_input at h
    rw [if_neg hamt, if_pos hty] at h
    simp at h
  have hty' : p.transaction_type = "credit" ∨ p.transaction_type = "debit" := by
    rcases not_and_or.mp hty with h1 | h1
    · exact Or.inl (not_not.mp h1)
    · exact Or.inr (not_not.mp h1)
  rw [credit_debit_fresh st biz p cErr hfresh hamt' hty'] at h
  rcases hP : process_credit_debit (insertPendingRow st biz p.idempotency_key) biz p
      p.account_id with e | ⟨r, s2⟩
  · simp only [hP] at h
    simp at h
  · simp only [hP] at h
    simp only [Prod.mk.injEq, Except.ok.injEq] at h
    exact ⟨hamt', by rw [h.1, h.2]⟩

/-- A successful reservation never changes accounts or transactions. -/
theorem reserve_idempotency_key_ok_state {st : DbState} {biz : Uuid} {k : String} {st1 : DbState}
    (h : reserve_idempotency_key st biz k = .ok st1) :
    st1.accounts = st.accounts ∧ st1.transactions = st.transactions := by
  unfold reserve_idempotency_key at h
  rcases hl : lookupIdem st biz k with _ | row
  · simp only [hl, Except.ok.injEq] at h
    subst h
    exact ⟨rfl, rfl⟩
  · simp only [hl] at h
    cases hst : row.status <;> simp only [hst] at h
    · cases h
    · cases h
    · simp only [Except.ok.injEq] at h
      subst h
      exact ⟨rfl, rfl⟩

/-- Any successful run of the `transfer` handler is either a cache hit
(state unchanged) or an executed transaction block on some accounts-equal
store. -/
theorem transfer_ok_cases {st : DbState} {biz : Uuid} {p : TransferRequest} {cErr : Bool}
    {resp : TransferResponse} {st' : DbState}
    (h : transfer st biz p cErr = (.ok resp, st')) :
    st' = st ∨
      (0 < p.amount ∧ ∃ st1, st1.accounts = st.accounts ∧
        process_transfer st1 biz p p.from_account_id p.to_account_id = .ok (resp, st')) := by
  by_cases hamt : p.amount ≤ 0
  · exfalso
    unfold transfer validate_transfer_input at h
    rw [if_pos hamt] at h
    simp at h
  have hamt' : 0 < p.amount := by omega
  unfold transfer at h
  simp only [validate_transfer_input_ok p hamt'] at h
  rcases hc : check_idempotency_cache decodeTransfer st biz p.idempotency_key cErr with _ | cr
  · simp only [hc] at h
    rcases hr : reserve_idempotency_key st biz p.idempotency_key with e | st1
    · simp only [hr] at h
      simp at h
    · simp only [hr] at h
      rcases hp : process_transfer st1 biz p p.from_account_id p.to_account_id with e | ⟨r, s2⟩
      · simp only [hp] at h
        simp at h
      · simp only [hp, Prod.mk.injEq, Except.ok.injEq] at h
        exact Or.inr ⟨hamt', st1, (reserve_idempotency_key_ok_state hr).1, by rw [← h.1, ← h.2]; exact hp⟩
  · simp only [hc, Prod.mk.injEq, Except.ok.injEq] at h
    exact Or.inl h.2.symm

/-- Any successful run of the `credit_debit` handler is either a cache
hit (state unchanged) or an executed transaction block on some
accounts-equal store. -/
theorem credit_debit_ok_cases {st : DbState} {biz : Uuid} {p : CreditDebitRequest} {cErr : Bool}
    {resp : CreditDebitResponse} {st' : DbState}
    (h : credit_debit st biz p cErr = (.ok resp, st')) :
    st' = st ∨
      (0 < p.amount ∧ ∃ st1, st1.accounts = st.accounts ∧
        process_credit_debit st1 biz p p.account_id = .ok (resp, st')) := by
  by_cases hamt : p.amount ≤ 0
  · exfalso
    unfold credit_debit validate_cd_input at h
    rw [if_pos hamt] at h
    simp at h
  have hamt' : 0 < p.amount := by omega
  by_cases hty : p.transaction_type ≠ "credit" ∧ p.transaction_type ≠ "debit"
  · exfalso
    unfold credit_debit validate_cd_input at h
    rw [if_neg hamt, if_pos hty] at h
    simp at h
  have hty' : p.transaction_type = "credit" ∨ p.transaction_type = "debit" := by
    rcases not_and_or.mp hty with h1 | h1
    · exact Or.inl (not_not.mp h1)
    · exact Or.inr (not_not.mp h1)
  unfold credit_debit at h
  simp only [validate_cd_input_ok p hamt' hty'] at h
  rcases hc : check_idempotency_cache decodeCreditDebit st biz p.idempotency_key cErr with _ | cr
  · simp only [hc] at h
    rcases hr : reserve_idempotency_key st biz p.idempotency_key with e | st1
    · simp only [hr] at h
      simp at h
    · simp only [hr] at h
      rcases hp : process_credit_debit st1 biz p p.account_id with e | ⟨r, s2⟩
      · simp only [hp] at h
        simp at h
      · simp only [hp, Prod.mk.injEq, Except.ok.injEq] at h
        exact Or.inr ⟨hamt', st1, (reserve_idempotency_key_ok_state hr).1, by rw [← h.1, ← h.2]; exact hp⟩
  · simp only [hc, Prod.mk.injEq, Except.ok.injEq] at h
    exact Or.inl h.2.symm

/-!  ## Claim theorems  -/

/-- C1 (counterexample): the claim that the two `FOR UPDATE` locks of a
transfer are acquired in ascending order of account id fails.  In
`sampleState` both accounts 1 and 2 exist, belong to business 7 and share
a currency; a transfer with source 2 and destination 1 acquires the locks
in the order `[2, 1]`, which is not ascending. -/
theorem C1_counterexample :
    (fetch_and_validate_accounts sampleState 2 1 7 10).2 = [2, 1] ∧
    ¬ List.Sorted (· ≤ ·) (fetch_and_validate_accounts sampleState 2 1 7 10).2 := by
  constructor
  · rfl
  · rw [show (fetch_and_validate_accounts sampleState 2 1 7 10).2 = [2, 1] from rfl]
    decide

/-- C1 (amended): `fetch_and_validate_accounts` acquires the two
`FOR UPDATE` locks in a fixed role order — the source account row first,
then the destination row — irrespective of how the two account ids
compare; the ascending-id canonical lock order stated by the spec is not
implemented. -/
theorem C1_amended_lock_order (st : DbState) (f t biz : Uuid) (amount : Int) (fa ta : Account)
    (hfa : lookupAccount st f = some fa) (hb : fa.business_id = biz)
    (hta : lookupAccount st t = some ta) :
    (fetch_and_validate_accounts st f t biz amount).2 = [f, t] := by
  unfold fetch_and_validate_accounts
  rw [hfa, hta]
  simp only [if_pos hb]
  by_cases hc : fa.currency = ta.currency
  · simp only [if_pos hc]
    by_cases hbal : fa.balance < amount
    · simp [if_pos hbal]
    · simp [if_neg hbal]
  · simp [if_neg hc]

/-- C1 (witness): the amended lock-order fact evaluated on `sampleState`
for the transfer 2 → 1 of business 7. -/
theorem C1_witness :
    (fetch_and_validate_accounts sampleState 2 1 7 10).2 = [2, 1] :=
  C1_amended_lock_order sampleState 2 1 7 10 ⟨7, 10000, "USD"⟩ ⟨7, 10000, "USD"⟩ rfl rfl rfl

/-- C2 (code bug): `reserve_idempotency_key` on an existing `failed` row
returns `Ok` — the request proceeds — but the conflict-update's `SET`
list touches only `created_at`, so the row keeps status `failed` instead
of being moved to `pending` as the spec requires.  Evaluated at the
failing input: business 7, key "k5", existing row status `failed` in
`populatedState`. -/
theorem C2_failed_row_not_set_pending :
    reserve_idempotency_key populatedState 7 "k5" = .ok populatedState ∧
    (lookupIdem populatedState 7 "k5").map IdempotencyRow.status = some .failed ∧
    (lookupIdem populatedState 7 "k5").map IdempotencyRow.status ≠ some .pending := by
  refine ⟨rfl, rfl, ?_⟩
  decide

/-- C4: the webhook dispatcher's per-event state machine.  For any event
dequeued by the `process_webhooks` query (hence `pending`, active
endpoint, backoff elapsed): a 2xx delivery moves it to `delivered`; a
failed delivery (non-2xx or transport error, treated symmetrically)
moves it to `failed` when its pre-attempt `attempts` count is ≥ 5 and
leaves it `pending` otherwise; `attempts` always increases by exactly 1.
Moreover no event whose status is `delivered` or `failed` ever satisfies
the dequeue predicate again. -/
theorem C4_webhook_state_machine (e : WebhookEvent) (result : DeliveryResult) (now : Int)
    (active : Bool) (hdue : webhookDue e active now) :
    (e.status = .pending ∧
     (processWebhookEvent e result now).attempts = e.attempts + 1 ∧
     (result = .http true → (processWebhookEvent e result now).status = .delivered) ∧
     (result.isFailure = true → 5 ≤ e.attempts →
        (processWebhookEvent e result now).status = .failed) ∧
     (result.isFailure = true → e.attempts < 5 →
        (processWebhookEvent e result now).status = .pending)) ∧
    (∀ (e' : WebhookEvent) (active' : Bool) (now' : Int),
       e'.status = .delivered ∨ e'.status = .failed → ¬ webhookDue e' active' now') := by
  refine ⟨⟨hdue.1, rfl, ?_, ?_, ?_⟩, ?_⟩
  · intro hres
    subst hres
    simp [processWebhookEvent]
  · intro hfail hge
    rcases result with is2 | _
    · cases is2
      · simp [processWebhookEvent, if_pos hge]
      · simp [DeliveryResult.isFailure] at hfail
    · simp [processWebhookEvent, if_pos hge]
  · intro hfail hlt
    have hnge : ¬ e.attempts ≥ 5 := by omega
    rcases result with is2 | _
    · cases is2
      · simp [processWebhookEvent, if_neg hnge]
      · simp [DeliveryResult.isFailure] at hfail
    · simp [processWebhookEvent, if_neg hnge]
  · intro e' active' now' hterm hdue'
    rcases hterm with ht | ht <;> rw [hdue'.1] at ht <;> cases ht

/-- C4 (witness): the state machine evaluated on a concrete pending
event with 5 prior attempts whose sixth delivery fails, and on terminal
events. -/
theorem C4_witness :
    ((processWebhookEvent ⟨11, "transfer.created", .malformed, .pending, 5, some 0⟩
        (.http false) 100).attempts = 5 + 1 ∧
     (processWebhookEvent ⟨11, "transfer.created", .malformed, .pending, 5, some 0⟩
        (.http false) 100).status = .failed) ∧
    ¬ webhookDue ⟨11, "transfer.created", .malformed, .delivered, 1, some 0⟩ true 100 := by
  have h := C4_webhook_state_machine
    ⟨11, "transfer.created", .malformed, .pending, 5, some 0⟩ (.http false) 100 true
    (by constructor
        · rfl
        · exact ⟨rfl, Or.inr ⟨0, rfl, by norm_num⟩⟩)
  exact ⟨⟨h.1.2.1, h.1.2.2.2.1 rfl (by norm_num)⟩,
    h.2 ⟨11, "transfer.created", .malformed, .delivered, 1, some 0⟩ true 100 (Or.inl rfl)⟩

/-- C3: replaying a ledger operation whose `(business_id, idempotency_key)`
row is `success` with a stored body of the operation's response type
returns exactly the stored response with `cached = true`, leaves the
whole store unchanged (in particular no balance mutation), and keeps
exactly one transactions row for that key.  Both the `transfer` and the
`credit_debit` handler are covered. -/
theorem C3_idempotent_replay :
    (∀ (st : DbState) (biz : Uuid) (p : TransferRequest) (r : TransferResponse),
       0 < p.amount →
       lookupIdem st biz p.idempotency_key = some ⟨.success, some (.transfer r)⟩ →
       txnCountForKey st p.idempotency_key = 1 →
       transfer st biz p false = (.ok { r with cached := some true }, st) ∧
       txnCountForKey (transfer st biz p false).2 p.idempotency_key = 1) ∧
    (∀ (st : DbState) (biz : Uuid) (p : CreditDebitRequest) (r : CreditDebitResponse),
       0 < p.amount →
       (p.transaction_type = "credit" ∨ p.transaction_type = "debit") →
       lookupIdem st biz p.idempotency_key = some ⟨.success, some (.creditDebit r)⟩ →
       txnCountForKey st p.idempotency_key = 1 →
       credit_debit st biz p false = (.ok { r with cached := some true }, st) ∧
       txnCountForKey (credit_debit st biz p false).2 p.idempotency_key = 1) := by
  constructor
  · intro st biz p r hamt h hcount
    have hhit : check_idempotency_cache decodeTransfer st biz p.idempotency_key false = some r := by
      unfold check_idempotency_cache
      simp [h, decodeTransfer]
    have htr : transfer st biz p false = (.ok { r with cached := some true }, st) := by
      unfold transfer
      simp only [validate_transfer_input_ok p hamt, hhit]
    refine ⟨htr, ?_⟩
    rw [htr]
    exact hcount
  · intro st biz p r hamt hty h hcount
    have hhit : check_idempotency_cache decodeCreditDebit st biz p.idempotency_key false = some r := by
      unfold check_idempotency_cache
      simp [h, decodeCreditDebit]
    have htr : credit_debit st biz p false = (.ok { r with cached := some true }, st) := by
      unfold credit_debit
      simp only [validate_cd_input_ok p hamt hty, hhit]
    refine ⟨htr, ?_⟩
    rw [htr]
    exact hcount

/-- C3 (witness): replaying the completed transfer `k1` and the completed
credit `k2` of business 7 on `populatedState`. -/
theorem C3_witness :
    (transfer populatedState 7 ⟨1, 2, 300, "k1"⟩ false =
       (.ok { cachedTransferResponse with cached := some true }, populatedState) ∧
     txnCountForKey (transfer populatedState 7 ⟨1, 2, 300, "k1"⟩ false).2 "k1" = 1) ∧
    (credit_debit populatedState 7 ⟨1, 200, "credit", "k2"⟩ false =
       (.ok { cachedCreditDebitResponse with cached := some true }, populatedState) ∧
     txnCountForKey (credit_debit populatedState 7 ⟨1, 200, "credit", "k2"⟩ false).2 "k2" = 1) :=
  ⟨C3_idempotent_replay.1 populatedState 7 ⟨1, 2, 300, "k1"⟩ cachedTransferResponse
      (by norm_num) rfl rfl,
   C3_idempotent_replay.2 populatedState 7 ⟨1, 200, "credit", "k2"⟩ cachedCreditDebitResponse
      (by norm_num) (Or.inl rfl) rfl rfl⟩

/-- C8: `reserve_idempotency_key` on an existing `pending` row fails with
"Operation in progress", and on an existing `success` row fails with the
distinct "Operation already completed successfully"; a transfer hitting
a `pending` reservation is refused with the store left untouched. -/
theorem C8_reserve_conflicts (st : DbState) (biz : Uuid) (key : String) (row : IdempotencyRow)
    (h : lookupIdem st biz key = some row) :
    (row.status = .pending →
       reserve_idempotency_key st biz key = .error .operationInProgress) ∧
    (row.status = .success →
       reserve_idempotency_key st biz key = .error .operationAlreadyCompleted) ∧
    (∀ p : TransferRequest, p.idempotency_key = key → 0 < p.amount →
       row.status = .pending →
       transfer st biz p false = (.error .operationInProgress, st)) := by
  refine ⟨?_, ?_, ?_⟩
  · intro hs
    unfold reserve_idempotency_key
    simp [h, hs]
  · intro hs
    unfold reserve_idempotency_key
    simp [h, hs]
  · intro p hk hamt hs
    have hrow : lookupIdem st biz p.idempotency_key = some row := by
      rw [hk]
      exact h
    have hcheck : check_idempotency_cache decodeTransfer st biz p.idempotency_key false = none :=
      check_idempotency_cache_not_success decodeTransfer st biz p.idempotency_key false row hrow
        (by rw [hs]; intro hcon; cases hcon)
    have hres : reserve_idempotency_key st biz p.idempotency_key =
        .error .operationInProgress := by
      unfold reserve_idempotency_key
      simp [hrow, hs]
    unfold transfer
    simp only [validate_transfer_input_ok p hamt, hcheck, hres]

/-- C8 (witness): evaluated on `populatedState`: the `pending` row `k4`,
the `success` row `k1`, and a transfer retrying key `k4`. -/
theorem C8_witness :
    reserve_idempotency_key populatedState 7 "k4" = .error .operationInProgress ∧
    reserve_idempotency_key populatedState 7 "k1" = .error .operationAlreadyCompleted ∧
    transfer populatedState 7 ⟨1, 2, 300, "k4"⟩ false =
      (.error .operationInProgress, populatedState) :=
  ⟨(C8_reserve_conflicts populatedState 7 "k4" ⟨.pending, none⟩ rfl).1 rfl,
   (C8_reserve_conflicts populatedState 7 "k1"
      ⟨.success, some (.transfer cachedTransferResponse)⟩ rfl).2.1 rfl,
   (C8_reserve_conflicts populatedState 7 "k4" ⟨.pending, none⟩ rfl).2.2
      ⟨1, 2, 300, "k4"⟩ rfl (by norm_num) rfl⟩

/-- C9: when the idempotency row for the key is `success` but the cache
lookup cannot produce the stored response — a store error on the
`SELECT`, or a stored body that does not deserialize into the requested
response type — `check_idempotency_cache` returns `none`, the request is
treated as a cache miss, and `reserve_idempotency_key` then rejects it
with "Operation already completed successfully" instead of the cached
response, leaving the store untouched. -/
theorem C9_cache_miss_guard (st : DbState) (biz : Uuid) (p : TransferRequest)
    (row : IdempotencyRow) (hamt : 0 < p.amount)
    (h : lookupIdem st biz p.idempotency_key = some row) (hs : row.status = .success) :
    (check_idempotency_cache decodeTransfer st biz p.idempotency_key true = none ∧
     transfer st biz p true = (.error .operationAlreadyCompleted, st)) ∧
    (row.response_body.bind decodeTransfer = none →
       check_idempotency_cache decodeTransfer st biz p.idempotency_key false = none ∧
       transfer st biz p false = (.error .operationAlreadyCompleted, st)) := by
  have hres : reserve_idempotency_key st biz p.idempotency_key =
      .error .operationAlreadyCompleted := by
    unfold reserve_idempotency_key
    simp [h, hs]
  constructor
  · have hcheck : check_idempotency_cache decodeTransfer st biz p.idempotency_key true = none := rfl
    refine ⟨hcheck, ?_⟩
    unfold transfer
    simp only [validate_transfer_input_ok p hamt, hcheck, hres]
  · intro hbody
    have hcheck : check_idempotency_cache decodeTransfer st biz p.idempotency_key false = none := by
      unfold check_idempotency_cache
      rcases hb : row.response_body with _ | body
      · simp [h, hs, hb]
      · have hd : decodeTransfer body = none := by
          rw [hb] at hbody
          simpa using hbody
        simp [h, hs, hb, hd]
    refine ⟨hcheck, ?_⟩
    unfold transfer
    simp only [validate_transfer_input_ok p hamt, hcheck, hres]

/-- C9 (witness): on `populatedState`, a retry of key `k1` under a store
error, and a retry of key `k3` (stored body does not deserialize as a
transfer response). -/
theorem C9_witness :
    (check_idempotency_cache decodeTransfer populatedState 7 "k1" true = none ∧
     transfer populatedState 7 ⟨1, 2, 300, "k1"⟩ true =
       (.error .operationAlreadyCompleted, populatedState)) ∧
    (check_idempotency_cache decodeTransfer populatedState 7 "k3" false = none ∧
     transfer populatedState 7 ⟨1, 2, 300, "k3"⟩ false =
       (.error .operationAlreadyCompleted, populatedState)) :=
  ⟨(C9_cache_miss_guard populatedState 7 ⟨1, 2, 300, "k1"⟩
      ⟨.success, some (.transfer cachedTransferResponse)⟩ (by norm_num) rfl rfl).1,
   (C9_cache_miss_guard populatedState 7 ⟨1, 2, 300, "k3"⟩
      ⟨.success, some .malformed⟩ (by norm_num) rfl rfl).2 rfl⟩

/-- C6: a successful (freshly executed, not cache-replayed) transfer of
amount `a` between two distinct accounts decreases the source balance by
exactly `a`, increases the destination balance by exactly `a`, and hence
preserves the sum of the two balances. -/
theorem C6_conservation (st : DbState) (biz : Uuid) (p : TransferRequest)
    (resp : TransferResponse) (st' : DbState) (bf bt : Int)
    (hfresh : lookupIdem st biz p.idempotency_key = none)
    (hne : p.from_account_id ≠ p.to_account_id)
    (h : transfer st biz p false = (.ok resp, st'))
    (hbf : balanceOf st p.from_account_id = some bf)
    (hbt : balanceOf st p.to_account_id = some bt) :
    balanceOf st' p.from_account_id = some (bf - p.amount) ∧
    balanceOf st' p.to_account_id = some (bt + p.amount) ∧
    bf - p.amount + (bt + p.amount) = bf + bt := by
  obtain ⟨hamt, hproc⟩ := transfer_fresh_ok_inv hfresh h
  obtain ⟨fa, ta, hfa, hbiz, hta, hcur, hbal, hresp, haccs, htx⟩ := process_transfer_ok_inv hproc
  rw [lookupAccount_insertPendingRow] at hfa hta
  have hbf' : fa.balance = bf := by
    unfold balanceOf at hbf
    rw [hfa] at hbf
    simpa using hbf
  have hbt' : ta.balance = bt := by
    unfold balanceOf at hbt
    rw [hta] at hbt
    simpa using hbt
  unfold lookupAccount at hfa hta
  refine ⟨?_, ?_, by ring⟩
  · unfold balanceOf lookupAccount
    rw [haccs, accounts_insertPendingRow]
    rw [lookupAcc_setAccountBalance_ne _ _ _ _ hne]
    rw [lookupAcc_setAccountBalance_self]
    rw [hfa]
    simp [hbf']
  · unfold balanceOf lookupAccount
    rw [haccs, accounts_insertPendingRow]
    rw [lookupAcc_setAccountBalance_self]
    rw [lookupAcc_setAccountBalance_ne _ _ _ _ (Ne.symm hne)]
    rw [hta]
    simp [hbt']

/-- C6 (witness): the transfer of 300 from account 1 to account 2 of
business 7 on `sampleState` (fresh key "k9"). -/
theorem C6_witness :
    balanceOf (transfer sampleState 7 ⟨1, 2, 300, "k9"⟩ false).2 1 = some (10000 - 300) ∧
    balanceOf (transfer sampleState 7 ⟨1, 2, 300, "k9"⟩ false).2 2 = some (10000 + 300) ∧
    (10000 : Int) - 300 + (10000 + 300) = 10000 + 10000 :=
  C6_conservation sampleState 7 ⟨1, 2, 300, "k9"⟩
    ⟨100, 1, 2, 300, "USD", "success", none⟩
    (transfer sampleState 7 ⟨1, 2, 300, "k9"⟩ false).2 10000 10000
    rfl (by decide) rfl rfl rfl

/-- C7: a transfer whose two accounts carry different currencies fails
with "Currency mismatch" reporting both currency codes and leaves every
account untouched (the transaction block never ran, only the idempotency
row is marked `failed` out of band); and every successful freshly
executed transfer has equal currencies on both accounts. -/
theorem C7_currency_mismatch :
    (∀ (st : DbState) (biz : Uuid) (p : TransferRequest) (fa ta : Account),
       lookupIdem st biz p.idempotency_key = none → 0 < p.amount →
       lookupAccount st p.from_account_id = some fa → fa.business_id = biz →
       lookupAccount st p.to_account_id = some ta → fa.currency ≠ ta.currency →
       (transfer st biz p false).1 = .error (.currencyMismatch fa.currency ta.currency) ∧
       (transfer st biz p false).2.accounts = st.accounts) ∧
    (∀ (st : DbState) (biz : Uuid) (p : TransferRequest) (cErr : Bool)
       (resp : TransferResponse) (st' : DbState) (fa ta : Account),
       lookupIdem st biz p.idempotency_key = none →
       transfer st biz p cErr = (.ok resp, st') →
       lookupAccount st p.from_account_id = some fa →
       lookupAccount st p.to_account_id = some ta →
       fa.currency = ta.currency) := by
  constructor
  · intro st biz p fa ta hfresh hamt hfa hbiz hta hcur
    have hfaI : lookupAccount (insertPendingRow st biz p.idempotency_key) p.from_account_id =
        some fa := by
      rw [lookupAccount_insertPendingRow]
      exact hfa
    have htaI : lookupAccount (insertPendingRow st biz p.idempotency_key) p.to_account_id =
        some ta := by
      rw [lookupAccount_insertPendingRow]
      exact hta
    have hF := fetch_and_validate_accounts_mismatch (insertPendingRow st biz p.idempotency_key)
      p.from_account_id p.to_account_id biz p.amount fa ta hfaI hbiz htaI hcur
    have hP := process_transfer_err (p := p) hF
    have hT := transfer_fresh_err st biz p false hfresh hamt hP
    rw [hT]
    exact ⟨rfl, by simp⟩
  · intro st biz p cErr resp st' fa ta hfresh h hfa hta
    obtain ⟨hamt, hproc⟩ := transfer_fresh_ok_inv hfresh h
    obtain ⟨fa', ta', hfa', hbiz', hta', hcur', hbal', hresp', hacc', htx'⟩ :=
      process_transfer_ok_inv hproc
    rw [lookupAccount_insertPendingRow] at hfa' hta'
    have e1 : fa = fa' := Option.some.inj (hfa.symm.trans hfa')
    have e2 : ta = ta' := Option.some.inj (hta.symm.trans hta')
    rw [e1, e2]
    exact hcur'

/-- C7 (witness): the mismatched transfer 1 → 3 (USD → EUR) is rejected
with both codes and no balance change, and the successful transfer
1 → 2 has equal currencies (both on `sampleState`, business 7). -/
theorem C7_witness :
    ((transfer sampleState 7 ⟨1, 3, 50, "k9"⟩ false).1 =
       .error (.currencyMismatch "USD" "EUR") ∧
     (transfer sampleState 7 ⟨1, 3, 50, "k9"⟩ false).2.accounts = sampleState.accounts) ∧
    (Account.currency ⟨7, 10000, "USD"⟩ = Account.currency ⟨7, 10000, "USD"⟩) :=
  ⟨C7_currency_mismatch.1 sampleState 7 ⟨1, 3, 50, "k9"⟩ ⟨7, 10000, "USD"⟩ ⟨7, 5000, "EUR"⟩
      rfl (by norm_num) rfl rfl rfl (by decide),
   C7_currency_mismatch.2 sampleState 7 ⟨1, 2, 300, "k9"⟩ false
      ⟨100, 1, 2, 300, "USD", "success", none⟩
      (transfer sampleState 7 ⟨1, 2, 300, "k9"⟩ false).2
      ⟨7, 10000, "USD"⟩ ⟨7, 10000, "USD"⟩ rfl rfl rfl rfl⟩

/-- C10: a self-transfer (`from_account_id = to_account_id`) is accepted
whenever the request is otherwise valid (positive amount, fresh
idempotency key), the account exists, belongs to the caller's business
and has balance at least the amount; it commits one more transactions
row for the key and leaves the account's balance unchanged, the debit
and credit of the same amount cancelling. -/
theorem C10_self_transfer (st : DbState) (biz : Uuid) (p : TransferRequest) (a : Account)
    (hself : p.from_account_id = p.to_account_id)
    (hamt : 0 < p.amount)
    (hfresh : lookupIdem st biz p.idempotency_key = none)
    (ha : lookupAccount st p.from_account_id = some a)
    (hb : a.business_id = biz)
    (hbal : p.amount ≤ a.balance) :
    ∃ resp st', transfer st biz p false = (.ok resp, st') ∧
      resp.status = "success" ∧
      balanceOf st' p.from_account_id = some a.balance ∧
      txnCountForKey st' p.idempotency_key = txnCountForKey st p.idempotency_key + 1 := by
  have haI : lookupAccount (insertPendingRow st biz p.idempotency_key) p.from_account_id =
      some a := by
    rw [lookupAccount_insertPendingRow]
    exact ha
  have htaI : lookupAccount (insertPendingRow st biz p.idempotency_key) p.to_account_id =
      some a := by
    rw [lookupAccount_insertPendingRow, ← hself]
    exact ha
  obtain ⟨resp, st2, hp, hresp, haccs, htx⟩ :=
    process_transfer_ok (insertPendingRow st biz p.idempotency_key) biz p
      p.from_account_id p.to_account_id a a haI hb htaI rfl (by omega)
  refine ⟨resp, st2, ?_, ?_, ?_, ?_⟩
  · rw [transfer_fresh st biz p false hfresh hamt]
    simp only [hp]
  · rw [hresp]
  · unfold balanceOf lookupAccount
    rw [haccs, accounts_insertPendingRow, ← hself]
    rw [lookupAcc_setAccountBalance_self, lookupAcc_setAccountBalance_self]
    unfold lookupAccount at ha
    rw [ha]
    simp
  · unfold txnCountForKey
    rw [htx, transactions_insertPendingRow]
    rw [List.filter_append]
    simp

/-- C10 (witness): the self-transfer of 300 on account 1 of business 7
on `sampleState` succeeds and leaves the balance at 10000. -/
theorem C10_witness :
    ∃ resp st', transfer sampleState 7 ⟨1, 1, 300, "k9"⟩ false = (.ok resp, st') ∧
      resp.status = "success" ∧
      balanceOf st' 1 = some (Account.balance ⟨7, 10000, "USD"⟩) ∧
      txnCountForKey st' "k9" = txnCountForKey sampleState "k9" + 1 :=
  C10_self_transfer sampleState 7 ⟨1, 1, 300, "k9"⟩ ⟨7, 10000, "USD"⟩ rfl (by norm_num)
    rfl rfl rfl (by norm_num)

/-- C5: the engine requires the source balance to cover the amount before
mutating it — `fetch_and_validate_accounts` rejects an underfunded
transfer and `process_credit_debit` rejects an underfunded debit, both
with "Insufficient balance" carrying available/required — and
consequently both handlers map every account with a non-negative balance
to an account with a non-negative balance on any committed (Ok) run. -/
theorem C5_balance_guard :
    (∀ (st : DbState) (f t biz : Uuid) (amount : Int) (fa ta : Account),
       lookupAccount st f = some fa → fa.business_id = biz →
       lookupAccount st t = some ta → fa.currency = ta.currency →
       fa.balance < amount →
       (fetch_and_validate_accounts st f t biz amount).1 =
         .error (.insufficientBalance fa.balance amount)) ∧
    (∀ (st : DbState) (biz : Uuid) (p : CreditDebitRequest) (aId : Uuid) (a : Account),
       lookupAccount st aId = some a → a.business_id = biz →
       p.transaction_type = "debit" → a.balance < p.amount →
       process_credit_debit st biz p aId =
         .error (.insufficientBalance a.balance p.amount)) ∧
    (∀ (st : DbState) (biz : Uuid) (p : TransferRequest) (resp : TransferResponse)
       (st' : DbState),
       transfer st biz p false = (.ok resp, st') →
       ∀ id b, balanceOf st id = some b → 0 ≤ b →
         ∃ b', balanceOf st' id = some b' ∧ 0 ≤ b') ∧
    (∀ (st : DbState) (biz : Uuid) (p : CreditDebitRequest) (resp : CreditDebitResponse)
       (st' : DbState),
       credit_debit st biz p false = (.ok resp, st') →
       ∀ id b, balanceOf st id = some b → 0 ≤ b →
         ∃ b', balanceOf st' id = some b' ∧ 0 ≤ b') := by
  refine ⟨?_, ?_, ?_, ?_⟩
  · intro st f t biz amount fa ta hfa hb hta hc hlt
    exact fetch_and_validate_accounts_insufficient st f t biz amount fa ta hfa hb hta hc hlt
  · intro st biz p aId a ha hbiz hty hlt
    have hcond : ¬ p.transaction_type = "credit" ∧ a.balance < p.amount :=
      ⟨by rw [hty]; decide, hlt⟩
    unfold process_credit_debit
    simp only [fetch_account_ok st aId biz a ha hbiz, if_pos hcond]
  · intro st biz p resp st' h id b hb hnn
    rcases transfer_ok_cases h with heq | ⟨hamt, st1, hacc1, hproc⟩
    · subst heq
      exact ⟨b, hb, hnn⟩
    · obtain ⟨fa, ta, hfa, hbiz, hta, hcur, hbal, hresp, haccs, htx⟩ :=
        process_transfer_ok_inv hproc
      unfold lookupAccount at hfa hta
      rw [hacc1] at hfa hta haccs
      unfold balanceOf lookupAccount at hb ⊢
      rcases hl : lookupAcc st.accounts id with _ | a0
      · rw [hl] at hb
        simp at hb
      rw [hl] at hb
      simp at hb
      rw [haccs]
      by_cases hidt : id = p.to_account_id
      · rw [hidt, lookupAcc_setAccountBalance_self]
        by_cases hft : p.to_account_id = p.from_account_id
        · rw [hft, lookupAcc_setAccountBalance_self]
          have hl' : lookupAcc st.accounts p.from_account_id = some a0 := by
            rw [← hft, ← hidt]
            exact hl
          rw [hl']
          refine ⟨b, ?_, hnn⟩
          have hx : a0.balance - p.amount + p.amount = b := by omega
          simp [hx]
        · have hl' : lookupAcc st.accounts p.to_account_id = some a0 := by
            rw [← hidt]
            exact hl
          rw [lookupAcc_setAccountBalance_ne _ _ _ _ hft, hl']
          refine ⟨b + p.amount, ?_, by omega⟩
          simp [hb]
      · rw [lookupAcc_setAccountBalance_ne _ _ _ _ hidt]
        by_cases hidf : id = p.from_account_id
        · rw [hidf, lookupAcc_setAccountBalance_self]
          have hl' : lookupAcc st.accounts p.from_account_id = some a0 := by
            rw [← hidf]
            exact hl
          rw [hl']
          have hfa0 : fa = a0 := Option.some.inj (hfa.symm.trans hl')
          rw [hfa0] at hbal
          refine ⟨b - p.amount, ?_, by omega⟩
          simp [hb]
        · rw [lookupAcc_setAccountBalance_ne _ _ _ _ hidf, hl]
          exact ⟨b, by simp [hb], hnn⟩
  · intro st biz p resp st' h id b hb hnn
    rcases credit_debit_ok_cases h with heq | ⟨hamt, st1, hacc1, hproc⟩
    · subst heq
      exact ⟨b, hb, hnn⟩
    · obtain ⟨a, ha, hbiz, hguard, haccs⟩ := process_credit_debit_ok_inv hproc
      unfold lookupAccount at ha
      rw [hacc1] at ha haccs
      unfold balanceOf lookupAccount at hb ⊢
      rcases hl : lookupAcc st.accounts id with _ | a0
      · rw [hl] at hb
        simp at hb
      rw [hl] at hb
      simp at hb
      rw [haccs]
      by_cases hida : id = p.account_id
      · rw [hida, lookupAcc_setAccountBalance_self]
        have hl' : lookupAcc st.accounts p.account_id = some a0 := by
          rw [← hida]
          exact hl
        rw [hl']
        have ha0 : a = a0 := Option.some.inj (ha.symm.trans hl')
        by_cases hcr : p.transaction_type = "credit"
        · refine ⟨b + p.amount, ?_, by omega⟩
          have hx : (if p.transaction_type = "credit" then a0.balance + p.amount
              else a0.balance - p.amount) = b + p.amount := by
            rw [if_pos hcr]
            omega
          simp [hx]
        · have hge : ¬ a.balance < p.amount := fun hc => hguard ⟨hcr, hc⟩
          rw [ha0] at hge
          refine ⟨b - p.amount, ?_, by omega⟩
          have hx : (if p.transaction_type = "credit" then a0.balance + p.amount
              else a0.balance - p.amount) = b - p.amount := by
            rw [if_neg hcr]
            omega
          simp [hx]
      · rw [lookupAcc_setAccountBalance_ne _ _ _ _ hida, hl]
        exact ⟨b, by simp [hb], hnn⟩

/-- C5 (witness): on `sampleState` (business 7): an underfunded transfer
and an underfunded debit of 20000 are rejected with available 10000 and
required 20000, and the successful transfer `1 → 2` of 300 and credit of
200 on account 1 keep every previously non-negative balance
non-negative. -/
theorem C5_witness :
    (fetch_and_validate_accounts sampleState 1 2 7 20000).1 =
      .error (.insufficientBalance 10000 20000) ∧
    process_credit_debit sampleState 7 ⟨1, 20000, "debit", "k9"⟩ 1 =
      .error (.insufficientBalance 10000 20000) ∧
    (∃ b', balanceOf (transfer sampleState 7 ⟨1, 2, 300, "k9"⟩ false).2 1 = some b' ∧
       0 ≤ b') ∧
    (∃ b', balanceOf (credit_debit sampleState 7 ⟨1, 200, "credit", "k9"⟩ false).2 1 = some b' ∧
       0 ≤ b') :=
  ⟨C5_balance_guard.1 sampleState 1 2 7 20000 ⟨7, 10000, "USD"⟩ ⟨7, 10000, "USD"⟩
      rfl rfl rfl rfl (by norm_num),
   C5_balance_guard.2.1 sampleState 7 ⟨1, 20000, "debit", "k9"⟩ 1 ⟨7, 10000, "USD"⟩
      rfl rfl rfl (by norm_num),
   C5_balance_guard.2.2.1 sampleState 7 ⟨1, 2, 300, "k9"⟩
      ⟨100, 1, 2, 300, "USD", "success", none⟩
      (transfer sampleState 7 ⟨1, 2, 300, "k9"⟩ false).2 rfl 1 10000 rfl (by norm_num),
   C5_balance_guard.2.2.2 sampleState 7 ⟨1, 200, "credit", "k9"⟩
      ⟨100, 1, 200, "USD", "credit", "success", 10200, none⟩
      (credit_debit sampleState 7 ⟨1, 200, "credit", "k9"⟩ false).2 rfl 1 10000 rfl
      (by norm_num)⟩
